import Mathlib

/-!
Verification of the profile-data-parsing and statistics core of the
perf_analyzer repository (genai-perf).  The parser/statistics engine itself
(`genai_perf.profile_data_parser.LLMProfileDataParser`,
`genai_perf.metrics.LLMMetrics`, `genai_perf.metrics.statistics.Statistics`)
is not present under src/ — only its test suite
(`tests/test_llm_profile_data_parser.py`) and two collaborator modules are.
The definitions below therefore model the missing core from the
specification (spec.md §3, §4.1–§4.5, §7, §8), and are evaluated against
the concrete fixtures of the test suite.  The console exporter
(`genai_perf/export_data/console_exporter.py`) is present in src/ and is
embedded directly from its source.
-/

namespace GenaiPerf

/-! ## Response Normalizer model (spec §4.1, sse-chat-completions kind) -/

/-- Modelled from the spec: one parsed SSE JSON event of a streamed
chat-completions response.  A `delta none` is a role-announcement or
content-less delta; `delta (some s)` carries incremental content `s`
(possibly the empty string, i.e. an empty-delta heartbeat); `done` is the
`[DONE]` terminal sentinel. -/
inductive SseEvent where
  | delta (content : Option String)
  | done
deriving DecidableEq

/-- Modelled from the spec: one raw response chunk of an sse-chat-completions
stream; a single chunk may contain several concatenated `data:` events. -/
structure SseChunk where
  events : List SseEvent
deriving DecidableEq

/-- Whether an event is the `[DONE]` sentinel. -/
def SseEvent.isDoneEvent : SseEvent → Bool
  | SseEvent.done => true
  | _ => false

/-- Modelled from the spec: the usable incremental content of one event —
empty or missing `delta.content` is dropped. -/
def eventContent : SseEvent → Option String
  | SseEvent.delta (some s) => if s = "" then none else some s
  | _ => none

/-- Modelled from the spec: stop consuming further chunks once a `[DONE]`
sentinel is observed; events of the chunk that precede the sentinel are
still consumed. -/
def takeUntilDone : List SseChunk → List SseChunk
  | [] => []
  | c :: rest =>
      if c.events.any SseEvent.isDoneEvent then
        [SseChunk.mk (c.events.takeWhile (fun e => !(SseEvent.isDoneEvent e)))]
      else c :: takeUntilDone rest

/-- Modelled from the spec: the fragment contributed by one chunk — all
content pieces belonging to the same original chunk boundary concatenated
into one fragment string; a chunk with no usable content produces no
fragment. -/
def chunkFragment (c : SseChunk) : Option String :=
  let s := String.join (c.events.filterMap eventContent)
  if s = "" then none else some s

/-- Modelled from the spec: the ordered fragments of a full
sse-chat-completions response stream. -/
def chunkFragments (cs : List SseChunk) : List String :=
  (takeUntilDone cs).filterMap chunkFragment

/-- Modelled from the spec: pair each response timestamp with its chunk and
keep only the surviving (timestamp, fragment) pairs; the timestamps of
filtered chunks are discarded. -/
def survivingPairs (ts : List Int) (cs : List SseChunk) : List (Int × String) :=
  (ts.zip (takeUntilDone cs)).filterMap
    (fun p => (chunkFragment p.2).map (fun s => (p.1, s)))

/-! ## Request records and normalization (spec §3, §4.1) -/

/-- Modelled from the spec: a request record of an sse-chat-completions
(`openai`) experiment; `inputText` is the text content of the request
payload. -/
structure OpenaiRequest where
  timestamp : Int
  inputText : String
  responseTimestamps : List Int
  responseOutputs : List SseChunk
deriving DecidableEq

/-- Modelled from the spec: a request record of a batch-generate (`triton`)
experiment; each chunk's designated text field is a fragment verbatim. -/
structure TritonRequest where
  timestamp : Int
  textInput : String
  responseTimestamps : List Int
  responseOutputs : List String
deriving DecidableEq

/-- Modelled from the spec: a request after normalization — its request
timestamp, its input text, and its surviving (response timestamp, fragment)
pairs. -/
structure NormalizedRequest where
  timestamp : Int
  inputText : String
  fragments : List (Int × String)
deriving DecidableEq

/-- Modelled from the spec: normalization of an sse-chat-completions
request. -/
def normalizeOpenai (r : OpenaiRequest) : NormalizedRequest :=
  ⟨r.timestamp, r.inputText, survivingPairs r.responseTimestamps r.responseOutputs⟩

/-- Modelled from the spec: normalization of a batch-generate request —
each chunk's text field is a fragment verbatim, empty fragments are not
usable. -/
def normalizeTriton (r : TritonRequest) : NormalizedRequest :=
  ⟨r.timestamp, r.textInput,
    (r.responseTimestamps.zip r.responseOutputs).filter (fun p => p.2 != "")⟩

/-! ## Rounding (spec §4.3, §9) -/

/-- Modelled from the spec: rounding to the nearest integer nanosecond with
ties resolved to the even integer, the convention the literal scenarios of
spec §8 require (the exact quotient 5/2 must round to 2). -/
def roundHalfEven (q : ℚ) : ℤ :=
  if q - ⌊q⌋ < 1 / 2 then ⌊q⌋
  else if (1 : ℚ) / 2 < q - ⌊q⌋ then ⌊q⌋ + 1
  else if ⌊q⌋ % 2 = 0 then ⌊q⌋ else ⌊q⌋ + 1

/-- Modelled from the spec: the same rounding computed in integer
arithmetic — `roundHalfEvenDiv n d` is the quotient `n / d` (for positive
`d`) rounded to the nearest integer, ties to even.  The lemma
`roundHalfEvenDiv_eq_roundHalfEven` identifies it with `roundHalfEven` on
the exact rational quotient. -/
def roundHalfEvenDiv (n : ℤ) (d : ℕ) : ℤ :=
  if 2 * (n % (d : ℤ)) < (d : ℤ) then n / (d : ℤ)
  else if (d : ℤ) < 2 * (n % (d : ℤ)) then n / (d : ℤ) + 1
  else if n / (d : ℤ) % 2 = 0 then n / (d : ℤ) else n / (d : ℤ) + 1

/-! ## Metrics Extractor model (spec §4.3) -/

/-- Modelled from the spec: the per-request metrics derived for one
surviving request (spec §3, §4.3).  `latency` and `ttft` are in
nanoseconds; `itl` is the single aggregate inter-token-latency value,
absent when the output sequence length is at most 1. -/
structure PerRequestMetrics where
  latency : Int
  ttft : Int
  itl : Option Int
  osl : Nat
  isl : Nat
deriving DecidableEq

/-- Modelled from the spec (§4.3): the
output-token-throughput-per-request, `output_sequence_length / latency`,
in tokens per nanosecond. -/
def PerRequestMetrics.ottpr (m : PerRequestMetrics) : ℚ :=
  (m.osl : ℚ) / (m.latency : ℚ)

/-- Modelled from the spec (§4.3): the Metrics Extractor.  Given a
tokenizer `tok` (black-box token counter) and a normalized request, it
produces the per-request metrics, or none when the request has zero
surviving fragments (unfinished, excluded). -/
def extract (tok : String → Nat) (r : NormalizedRequest) : Option PerRequestMetrics :=
  match r.fragments with
  | [] => none
  | (t1, _) :: _ =>
    let ts := r.fragments.map Prod.fst
    let tn := ts.foldl (fun _ t => t) t1
    let counts := r.fragments.map (fun p => tok p.2)
    let osl := counts.sum
    let lat := tn - r.timestamp
    let ttft := t1 - r.timestamp
    let itl : Option Int :=
      if 1 < osl then some (roundHalfEvenDiv (lat - ttft) (osl - 1))
      else none
    some ⟨lat, ttft, itl, osl, tok r.inputText⟩

/-- Modelled from the spec: the surviving per-request metrics of an
experiment group, in request order; unfinished requests are excluded
without aborting the rest. -/
def survivors (tok : String → Nat) (rs : List NormalizedRequest) : List PerRequestMetrics :=
  rs.filterMap (extract tok)

/-- The index-aligned time-to-first-token sequence of an experiment. -/
def ttfts (tok : String → Nat) (rs : List NormalizedRequest) : List Int :=
  (survivors tok rs).map (fun m => m.ttft)

/-- The recorded inter-token-latency values of an experiment; a request
with output sequence length at most 1 records no value. -/
def itls (tok : String → Nat) (rs : List NormalizedRequest) : List Int :=
  (survivors tok rs).filterMap (fun m => m.itl)

/-! ## Statistics Engine model (spec §4.4) -/

/-- Modelled from the spec: the maximum surviving response timestamp of the
experiment window. -/
def maxRespTs (rs : List NormalizedRequest) : Int :=
  ((rs.map (fun r => r.fragments.map Prod.fst)).flatten).foldl max 0

/-- Modelled from the spec: the minimum request timestamp of the experiment
window. -/
def minReqTs (rs : List NormalizedRequest) : Int :=
  match rs with
  | [] => 0
  | r :: rest => (rest.map (fun x => x.timestamp)).foldl min r.timestamp

/-- Modelled from the spec: the whole-experiment duration,
`max(response_timestamps) - min(request timestamps)`. -/
def experimentDuration (rs : List NormalizedRequest) : Int :=
  maxRespTs rs - minReqTs rs

/-- Modelled from the spec (§4.4): the aggregate output-token-throughput —
a single whole-experiment value, the sum of output sequence lengths over
all surviving requests divided by the experiment duration. -/
def outputTokenThroughput (tok : String → Nat) (rs : List NormalizedRequest) : ℚ :=
  ((((survivors tok rs).map (fun m => m.osl)).sum : ℚ)) / ((experimentDuration rs : Int) : ℚ)

/-- Arithmetic mean of a list of rationals (used only to contrast the
aggregate throughput with a per-request average). -/
def ratMean (xs : List ℚ) : ℚ := xs.sum / (xs.length : ℚ)

/-- Modelled from the spec: user-supplied goodput constraints, already
unit-converted to the native nanosecond / tokens-per-nanosecond
representation; a missing field is an unconstrained metric. -/
structure GoodputConstraints where
  ttft : Option ℚ
  itl : Option ℚ
  ottpr : Option ℚ
deriving DecidableEq

/-- Modelled from the spec (§3, §4.4): a request is good only if it is
defined for every constrained metric and every constraint is met —
latency-like metrics compare with ≤, throughput-like with ≥. -/
def isGood (m : PerRequestMetrics) (gc : GoodputConstraints) : Bool :=
  (match gc.ttft with
   | none => true
   | some thr => decide ((m.ttft : ℚ) ≤ thr)) &&
  (match gc.itl with
   | none => true
   | some thr =>
     match m.itl with
     | none => false
     | some v => decide ((v : ℚ) ≤ thr)) &&
  (match gc.ottpr with
   | none => true
   | some thr => decide (thr ≤ m.ottpr))

/-- Modelled from the spec (§4.4): request goodput — good request count
divided by the total experiment duration; absent (not zero) when no
constraints are supplied. -/
def requestGoodput (tok : String → Nat) (gc : Option GoodputConstraints)
    (rs : List NormalizedRequest) : Option ℚ :=
  gc.map (fun c =>
    ((((survivors tok rs).filter (fun m => isGood m c)).length : ℚ)) /
      ((experimentDuration rs : Int) : ℚ))

/-! ## Profile Data Parser query model (spec §4.5) -/

/-- Modelled from the spec (§4.5): `get_statistics` looks an experiment up
by its `(infer_mode, str(load_level))` key; a lookup miss raises a
"key not found" condition identifying the missing key, modelled as an
`Except.error` carrying the key. -/
def get_statistics {α : Type} (entries : List ((String × String) × α))
    (inferMode loadLevel : String) : Except (String × String) α :=
  match entries with
  | [] => Except.error (inferMode, loadLevel)
  | e :: rest =>
    if e.1 = (inferMode, loadLevel) then Except.ok e.2
    else get_statistics rest inferMode loadLevel

/-! ## Tokenization Adapter model (spec §4.2) -/

/-- Modelled from the spec: `_get_output_token_counts` of the parser —
each fragment is tokenized independently using only its own text, and the
total output token count tokenizes the fully concatenated text; the two
routes are not required to agree. -/
def get_output_token_counts (tok : String → Nat) (frags : List String) :
    List Nat × Nat :=
  (frags.map tok, tok (String.join frags))

/-- Modelled from the spec: the tokenizer is an injected black box
(`encode : text → token ids`); only token counts reach this core.  This
table records the counts of the default GPT-2 style tokenizer on exactly
the strings of the test fixtures, as documented by the test suite's
expected sequence lengths and §8 of the spec. -/
def tokTable : List (String × Nat) :=
  [ ("I", 1), (" like", 1), (" dogs", 1),
    (" don\x27t", 3), (" cook food", 2),
    ("don\x27t", 3), ("cook food", 2),
    ("This is test", 3), ("This is test too", 4),
    ("cat", 1), (" is", 1), (" cool", 1), (" too", 1),
    ("it\x27s", 2), (" very", 1), (" simple work", 3),
    ("Ad", 1), ("idas", 1), (" Orig", 1), ("inals", 1), (" are", 1),
    (" now", 1), (" available", 1), (" in", 1), (" more", 1), (" than", 1),
    ("Adidas Originals are now available in more than", 9) ]

/-- Modelled from the spec: the black-box token counter,
`len(tokenizer.encode(text))`, read off `tokTable`. -/
def modelTok (s : String) : Nat :=
  ((tokTable.find? (fun p => decide (p.1 = s))).map (fun p => p.2)).getD 0

/-! ## Test fixtures (tests/test_llm_profile_data_parser.py) -/

/-- Triton fixture, concurrency-10 experiment, first request. -/
def tritonReq1 : TritonRequest :=
  ⟨1, ("This is test"), [3, 5, 8], [("I"), (" like"), (" dogs")]⟩

/-- Triton fixture, concurrency-10 experiment, second request. -/
def tritonReq2 : TritonRequest :=
  ⟨2, ("This is test too"), [4, 7, 11], [("I"), (" don\x27t"), (" cook food")]⟩

/-- Triton fixture, request-rate-2.0 experiment, first request. -/
def tritonReq3 : TritonRequest :=
  ⟨5, ("This is test"), [7, 8, 13, 18], [("cat"), (" is"), (" cool"), (" too")]⟩

/-- Triton fixture, request-rate-2.0 experiment, second request. -/
def tritonReq4 : TritonRequest :=
  ⟨3, ("This is test too"), [6, 8, 11], [("it\x27s"), (" very"), (" simple work")]⟩

/-- Triton fixture, concurrency-10 experiment, normalized. -/
def tritonExp1 : List NormalizedRequest :=
  [tritonReq1, tritonReq2].map normalizeTriton

/-- Triton fixture, request-rate-2.0 experiment, normalized. -/
def tritonExp2 : List NormalizedRequest :=
  [tritonReq3, tritonReq4].map normalizeTriton

/-- SSE chunk carrying a single content delta. -/
def contentChunk (s : String) : SseChunk := SseChunk.mk [SseEvent.delta (some s)]

/-- SSE chunk carrying a role-announcement delta (no content). -/
def roleChunk : SseChunk := SseChunk.mk [SseEvent.delta none]

/-- SSE chunk carrying an empty-delta heartbeat. -/
def emptyDeltaChunk : SseChunk := SseChunk.mk [SseEvent.delta (some (""))]

/-- SSE chunk carrying the `[DONE]` sentinel. -/
def doneChunk : SseChunk := SseChunk.mk [SseEvent.done]

/-- Openai (sse-chat-completions) fixture, first request: the first chunk
carries only a role-announcement delta, the fifth an empty delta, the
sixth the sentinel. -/
def openaiReq1 : OpenaiRequest :=
  ⟨1, ("This is test"), [3, 5, 8, 12, 13, 14],
    [roleChunk, contentChunk ("I"), contentChunk (" like"),
     contentChunk (" dogs"), SseChunk.mk [SseEvent.delta (some (""))], doneChunk]⟩

/-- Openai (sse-chat-completions) fixture, second request. -/
def openaiReq2 : OpenaiRequest :=
  ⟨2, ("This is test too"), [4, 7, 11, 15, 18, 19],
    [roleChunk, contentChunk ("I"), contentChunk ("don\x27t"),
     contentChunk ("cook food"), SseChunk.mk [SseEvent.delta none], doneChunk]⟩

/-- Openai fixture, concurrency-10 experiment, normalized. -/
def openaiExp1 : List NormalizedRequest :=
  [openaiReq1, openaiReq2].map normalizeOpenai

/-- All-empty-delta fixture request: every response chunk has a
content-less or empty delta, terminated by `[DONE]`. -/
def emptyFixtureReq : OpenaiRequest :=
  ⟨1, ("This is test"), [3, 5, 8], [roleChunk, emptyDeltaChunk, doneChunk]⟩

/-- Goodput constraints of the triton test, unit-converted to native
units: time_to_first_token ≤ 2.5 ns, inter_token_latency ≤ 2.5 ns,
output_token_throughput_per_request ≥ 0.5 tokens/ns. -/
def tritonTestConstraints : GoodputConstraints :=
  ⟨some (5 / 2), some (5 / 2), some (1 / 2)⟩

/-- The triton fixture's parser lookup table keyed by
`(infer_mode, str(load_level))`. -/
def tritonParserEntries : List ((String × String) × List NormalizedRequest) :=
  [ ((("concurrency"), ("10")), tritonExp1),
    ((("request_rate"), ("2.0")), tritonExp2) ]

/-- The ten-fragment token-count fixture of the output-token-count tests. -/
def tokenCountFixture : List String :=
  [("Ad"), ("idas"), (" Orig"), ("inals"), (" are"),
   (" now"), (" available"), (" in"), (" more"), (" than")]

/-! ## Response preprocessing model (spec §4.1, §7) -/

/-- Modelled from the spec: one line of a streamed response as seen by the
parser's response preprocessing — either a line that parses as the
expected SSE JSON shape (carrying its optional content), or a line that
cannot be parsed as that shape (the streaming connection ended mid-object),
carrying its raw text. -/
inductive StreamLine where
  | parsedData (content : Option String)
  | unparseable (raw : String)
deriving DecidableEq

/-- Whether a line failed to parse as the expected shape. -/
def StreamLine.isUnparseable : StreamLine → Bool
  | StreamLine.unparseable _ => true
  | _ => false

/-- Modelled from the spec (§4.1, §7): response preprocessing of a
streamed response.  A line that cannot be parsed as the expected shape is
merged with the following partial line when one follows; when it is the
final line it is treated as already-terminal content and passed through
unmodified — never repaired into an error. -/
def preprocessStream : List StreamLine → List StreamLine
  | [] => []
  | [l] => [l]
  | l :: l2 :: rest =>
    match l, l2 with
    | StreamLine.unparseable a, StreamLine.unparseable b =>
        preprocessStream (StreamLine.unparseable (a ++ b) :: rest)
    | _, _ => l :: preprocessStream (l2 :: rest)
termination_by ls => ls.length

/-- Modelled from the spec (§7): the fallible view of response
preprocessing — tolerated inputs always yield a result, never an error. -/
def preprocessResponse (ls : List StreamLine) : Except String (List StreamLine) :=
  Except.ok (preprocessStream ls)

/-! ## Console exporter (source: genai_perf/export_data/console_exporter.py) -/

/-- The exporter arguments consulted by the statistics-table row filter
(source: `ConsoleExporter`, `self._args`). -/
structure ConsoleArgs where
  endpoint_type : String
  streaming : Bool
deriving DecidableEq

/-- Source: `ConsoleExporter._should_skip` (console_exporter.py,
lines 147–166). -/
def should_skip (args : ConsoleArgs) (metricName : String) : Bool :=
  if args.endpoint_type = ("embeddings") then false
  else if metricName = ("output_token_throughput_per_request") then true
  else if args.streaming = false ∧
      (metricName = ("inter_token_latency") ∨ metricName = ("time_to_first_token")) then true
  else false

/-- Source: `ConsoleExporter._construct_llm_table` (console_exporter.py,
lines 86–98) — the row-selection behaviour: a request metric contributes a
table row exactly when `_should_skip` does not skip it. -/
def construct_llm_table (args : ConsoleArgs) (requestMetrics : List String) : List String :=
  requestMetrics.filter (fun m => !(should_skip args m))

/-! ## Helper lemmas -/

/-- The integer-arithmetic rounding agrees with rounding the exact
rational quotient to the nearest integer, ties to even. -/
lemma roundHalfEvenDiv_eq_roundHalfEven (n : ℤ) (d : ℕ) (hd : 0 < d) :
    roundHalfEvenDiv n d = roundHalfEven ((n : ℚ) / (d : ℚ)) := by
  have hdQ : (0 : ℚ) < (d : ℚ) := by exact_mod_cast hd
  have hfl : ⌊(n : ℚ) / (d : ℚ)⌋ = n / (d : ℤ) := Rat.floor_intCast_div_natCast n d
  have hmod := Int.ediv_add_emod n (d : ℤ)
  have hmodQ : ((d : ℚ)) * ((n / (d : ℤ) : ℤ) : ℚ) + ((n % (d : ℤ) : ℤ) : ℚ) = (n : ℚ) := by
    exact_mod_cast hmod
  have hfrac : (n : ℚ) / (d : ℚ) - ((n / (d : ℤ) : ℤ) : ℚ)
      = ((n % (d : ℤ) : ℤ) : ℚ) / (d : ℚ) := by
    field_simp
    linarith [hmodQ]
  have hlt : (((n % (d : ℤ) : ℤ) : ℚ) / (d : ℚ) < 1 / 2) ↔ (2 * (n % (d : ℤ)) < (d : ℤ)) := by
    rw [div_lt_div_iff₀ hdQ (by norm_num : (0 : ℚ) < 2), one_mul]
    constructor
    · intro h
      have h2 : ((2 * (n % (d : ℤ)) : ℤ) : ℚ) < ((d : ℤ) : ℚ) := by push_cast; linarith
      exact_mod_cast h2
    · intro h
      have h2 : ((2 * (n % (d : ℤ)) : ℤ) : ℚ) < ((d : ℤ) : ℚ) := by exact_mod_cast h
      push_cast at h2
      linarith
  have hgt : ((1 : ℚ) / 2 < ((n % (d : ℤ) : ℤ) : ℚ) / (d : ℚ)) ↔ ((d : ℤ) < 2 * (n % (d : ℤ))) := by
    rw [div_lt_div_iff₀ (by norm_num : (0 : ℚ) < 2) hdQ, one_mul]
    constructor
    · intro h
      have h2 : ((d : ℤ) : ℚ) < ((2 * (n % (d : ℤ)) : ℤ) : ℚ) := by push_cast; linarith
      exact_mod_cast h2
    · intro h
      have h2 : ((d : ℤ) : ℚ) < ((2 * (n % (d : ℤ)) : ℤ) : ℚ) := by exact_mod_cast h
      push_cast at h2
      linarith
  unfold roundHalfEven roundHalfEvenDiv
  rw [hfl, hfrac]
  simp only [hlt, hgt]

/-- The extracted inter-token-latency is the rounded rational quotient
`(latency - ttft) / (osl - 1)` when `osl > 1`, and absent when
`osl ≤ 1`. -/
lemma extract_itl (tok : String → Nat) (nr : NormalizedRequest) (m : PerRequestMetrics)
    (h : extract tok nr = some m) :
    (1 < m.osl →
      m.itl = some (roundHalfEven (((m.latency : ℚ) - (m.ttft : ℚ)) / ((m.osl : ℚ) - 1)))) ∧
    (m.osl ≤ 1 → m.itl = none) := by
  cases hf : nr.fragments with
  | nil => simp [extract, hf] at h
  | cons a rest =>
    obtain ⟨t1, s⟩ := a
    simp only [extract, hf] at h
    rw [Option.some_inj] at h
    subst h
    constructor
    · intro h1
      simp only at h1 ⊢
      rw [if_pos h1]
      rw [roundHalfEvenDiv_eq_roundHalfEven _ _ (by omega)]
      congr 1
      push_cast [Nat.cast_sub h1.le]
      ring_nf
    · intro h1
      simp only at h1 ⊢
      rw [if_neg (by omega)]

/-- The extracted time-to-first-token is the first surviving response
timestamp minus the request timestamp (as an `Option.map` equation, absent
exactly when the request has no surviving fragment). -/
lemma extract_ttft_head (tok : String → Nat) (nr : NormalizedRequest) :
    (extract tok nr).map (fun m => m.ttft)
      = nr.fragments.head?.map (fun p => p.1 - nr.timestamp) := by
  cases h : nr.fragments with
  | nil => simp [extract, h]
  | cons a rest =>
    cases a with
    | mk t s => simp [extract, h]

/-- The boolean goodput test agrees with the propositional reading of the
spec: all constrained metrics defined and all constraints met. -/
lemma isGood_iff (m : PerRequestMetrics) (gc : GoodputConstraints) :
    isGood m gc = true ↔
      ((∀ thr, gc.ttft = some thr → (m.ttft : ℚ) ≤ thr) ∧
       (∀ thr, gc.itl = some thr → ∃ v, m.itl = some v ∧ (v : ℚ) ≤ thr) ∧
       (∀ thr, gc.ottpr = some thr → thr ≤ m.ottpr)) := by
  obtain ⟨gt, gi, go⟩ := gc
  cases gt <;> cases gi <;> cases go <;> cases hmi : m.itl <;>
    simp [isGood, hmi] <;> tauto

/-- Surviving metrics of the triton concurrency-10 fixture. -/
lemma survTriton1 :
    survivors modelTok tritonExp1 = [⟨7, 2, some 2, 3, 3⟩, ⟨9, 2, some 1, 6, 4⟩] := by
  decide

/-- Surviving metrics of the triton request-rate-2.0 fixture. -/
lemma survTriton2 :
    survivors modelTok tritonExp2 = [⟨13, 2, some 4, 4, 3⟩, ⟨8, 3, some 1, 6, 4⟩] := by
  decide

/-- Duration of the triton concurrency-10 fixture window: 11 - 1. -/
lemma durTriton1 : experimentDuration tritonExp1 = 10 := by decide

/-- Duration of the triton request-rate-2.0 fixture window: 18 - 3. -/
lemma durTriton2 : experimentDuration tritonExp2 = 15 := by decide

/-- Lookup misses of `get_statistics` are exactly the absent keys, and the
error carries the missing key. -/
lemma get_statistics_error_iff (α : Type) (entries : List ((String × String) × α))
    (m l : String) :
    get_statistics entries m l = Except.error (m, l) ↔ ∀ e ∈ entries, e.1 ≠ (m, l) := by
  induction entries with
  | nil => simp [get_statistics]
  | cons e rest ih =>
    by_cases h : e.1 = (m, l)
    · simp [get_statistics, h]
    · simp [get_statistics, h, ih]

/-! ## Claim theorems -/

/-- C1: for every surviving request with output_sequence_length > 1 the
Metrics Extractor records exactly one inter-token-latency value, equal to
`((tn - t0) - (t1 - t0)) / (output_sequence_length - 1)` — i.e.
`(latency - ttft) / (osl - 1)` — rounded to the nearest integer
nanosecond; for `output_sequence_length ≤ 1` no value is recorded.  On the
triton concurrency-10 fixture the exact quotients 5/2 and 7/5 round to the
recorded values [2, 1]. -/
theorem c1_inter_token_latency :
    (∀ tok nr m, extract tok nr = some m →
      (1 < m.osl →
        m.itl = some (roundHalfEven (((m.latency : ℚ) - (m.ttft : ℚ)) / ((m.osl : ℚ) - 1)))) ∧
      (m.osl ≤ 1 → m.itl = none)) ∧
    (∀ q : ℚ, |q - (roundHalfEven q : ℚ)| ≤ 1 / 2) ∧
    itls modelTok tritonExp1 = [2, 1] ∧
    roundHalfEven (5 / 2) = 2 ∧ roundHalfEven (7 / 5) = 1 := by
  refine ⟨extract_itl, ?_, by decide, by norm_num [roundHalfEven], by norm_num [roundHalfEven]⟩
  intro q
  have h1 : ((⌊q⌋ : ℚ)) ≤ q := Int.floor_le q
  have h2 : q < ⌊q⌋ + 1 := Int.lt_floor_add_one q
  unfold roundHalfEven
  split_ifs with ha hb hc <;> rw [abs_le] <;> constructor <;> push_cast <;> linarith

/-- Witness for C1: the first request of the triton concurrency-10 fixture
survives extraction with osl = 3 > 1, and its recorded ITL is the rounded
quotient (8 - 1 - 2) / 2 = 5/2 → 2. -/
theorem c1_inter_token_latency_witness :
    extract modelTok (normalizeTriton tritonReq1) = some (⟨7, 2, some 2, 3, 3⟩) ∧
    (some (2 : Int))
      = some (roundHalfEven ((((7 : Int) : ℚ) - ((2 : Int) : ℚ)) / (((3 : Nat) : ℚ) - 1))) :=
  ⟨by decide,
    (c1_inter_token_latency.1 modelTok (normalizeTriton tritonReq1) ⟨7, 2, some 2, 3, 3⟩
      (by decide)).1 (by decide)⟩

/-- C2: time-to-first-token equals the first surviving response timestamp
minus the request timestamp; the timestamps of filtered chunks
(role-announcement deltas, empty-delta heartbeats, the [DONE] sentinel)
are discarded and never used.  On the sse-chat-completions fixture whose
first chunk carries only a role-announcement delta, the TTFTs are
[5 - 1, 7 - 2] = [4, 5]. -/
theorem c2_time_to_first_token :
    (∀ tok nr, (extract tok nr).map (fun m => m.ttft)
      = nr.fragments.head?.map (fun p => p.1 - nr.timestamp)) ∧
    (∀ tok (r : OpenaiRequest), (extract tok (normalizeOpenai r)).map (fun m => m.ttft)
      = (survivingPairs r.responseTimestamps r.responseOutputs).head?.map
          (fun p => p.1 - r.timestamp)) ∧
    ttfts modelTok openaiExp1 = [4, 5] :=
  ⟨fun tok nr => extract_ttft_head tok nr,
   fun tok r => extract_ttft_head tok (normalizeOpenai r),
   by decide⟩

/-- C3: the aggregate output-token-throughput is a single whole-experiment
value: the sum of output sequence lengths over all surviving requests
divided by `max(response_timestamps) - min(request timestamps)` of the
experiment window.  On the triton concurrency-10 fixture it equals
(3 + 6)/(11 - 1), and it differs from the average of the per-request
throughputs. -/
theorem c3_aggregate_output_token_throughput :
    (∀ tok rs, outputTokenThroughput tok rs
      = ((((survivors tok rs).map (fun m => m.osl)).sum : ℚ))
        / ((maxRespTs rs - minReqTs rs : Int) : ℚ)) ∧
    outputTokenThroughput modelTok tritonExp1 = ((3 + 6 : ℚ)) / ((11 : ℚ) - 1) ∧
    outputTokenThroughput modelTok tritonExp1
      ≠ ratMean ((survivors modelTok tritonExp1).map (fun m => m.ottpr)) := by
  refine ⟨fun tok rs => rfl, ?_, ?_⟩
  · rw [outputTokenThroughput, survTriton1, durTriton1]
    norm_num
  · rw [outputTokenThroughput, survTriton1, durTriton1]
    norm_num [ratMean, PerRequestMetrics.ottpr]

/-- C4: with constraints supplied, a request is good only if every
constrained metric is defined for it and satisfies its threshold
(latency-like: value ≤ threshold; throughput-like: value ≥ threshold),
and request goodput is the good-request count divided by the experiment
duration; an unsatisfiable constraint set yields goodput 0/duration, not
an error (triton request-rate fixture); with no constraints goodput is
absent rather than zero. -/
theorem c4_request_goodput :
    (∀ tok rs, requestGoodput tok none rs = none) ∧
    (∀ m gc, isGood m gc = true ↔
      ((∀ thr, gc.ttft = some thr → (m.ttft : ℚ) ≤ thr) ∧
       (∀ thr, gc.itl = some thr → ∃ v, m.itl = some v ∧ (v : ℚ) ≤ thr) ∧
       (∀ thr, gc.ottpr = some thr → thr ≤ m.ottpr))) ∧
    (∀ tok gc rs, requestGoodput tok (some gc) rs
      = some (((((survivors tok rs).filter (fun m => isGood m gc)).length : ℚ))
          / ((experimentDuration rs : Int) : ℚ))) ∧
    requestGoodput modelTok (some tritonTestConstraints) tritonExp1 = some (1 / 10) ∧
    requestGoodput modelTok (some tritonTestConstraints) tritonExp2 = some 0 := by
  refine ⟨fun tok rs => rfl, isGood_iff, fun tok gc rs => rfl, ?_, ?_⟩
  · rw [show requestGoodput modelTok (some tritonTestConstraints) tritonExp1
        = some (((((survivors modelTok tritonExp1).filter
            (fun m => isGood m tritonTestConstraints)).length : ℚ))
          / ((experimentDuration tritonExp1 : Int) : ℚ)) from rfl]
    rw [survTriton1, durTriton1]
    norm_num [isGood, tritonTestConstraints, PerRequestMetrics.ottpr, List.filter]
  · rw [show requestGoodput modelTok (some tritonTestConstraints) tritonExp2
        = some (((((survivors modelTok tritonExp2).filter
            (fun m => isGood m tritonTestConstraints)).length : ℚ))
          / ((experimentDuration tritonExp2 : Int) : ℚ)) from rfl]
    rw [survTriton2, durTriton2]
    norm_num [isGood, tritonTestConstraints, PerRequestMetrics.ottpr, List.filter]

/-- C5: sse-chat-completions normalization concatenates all content
pieces of one original chunk into a single fragment (three data events
"abc", "1234", "helloworld" merge into exactly "abc1234helloworld"),
drops events with empty or missing delta content, and stops consuming
further chunks once a [DONE] sentinel is observed. -/
theorem c5_sse_normalization :
    chunkFragments [SseChunk.mk [SseEvent.delta (some ("abc")), SseEvent.delta (some ("1234")),
        SseEvent.delta (some ("helloworld"))], doneChunk] = [("abc1234helloworld")] ∧
    (∀ rest, takeUntilDone (doneChunk :: rest) = [SseChunk.mk []]) ∧
    (∀ evs, chunkFragment (SseChunk.mk (SseEvent.delta (some ("")) :: evs))
      = chunkFragment (SseChunk.mk evs)) ∧
    (∀ evs, chunkFragment (SseChunk.mk (SseEvent.delta none :: evs))
      = chunkFragment (SseChunk.mk evs)) :=
  ⟨by decide, fun rest => rfl, fun evs => rfl, fun evs => rfl⟩

/-- C6: for every (infer_mode, load_level) pair absent from the loaded
record, get_statistics returns a lookup error identifying the missing key
(never an empty result); on the triton fixture the key
("concurrency", "30") errors while ("concurrency", "10") resolves. -/
theorem c6_statistics_lookup_error :
    (∀ (α : Type) (entries : List ((String × String) × α)) (m l : String),
      get_statistics entries m l = Except.error (m, l) ↔ ∀ e ∈ entries, e.1 ≠ (m, l)) ∧
    get_statistics tritonParserEntries ("concurrency") ("30")
      = Except.error ((("concurrency"), ("30"))) ∧
    get_statistics tritonParserEntries ("concurrency") ("10") = Except.ok tritonExp1 :=
  ⟨get_statistics_error_iff, rfl, rfl⟩

/-- C7: a request with zero surviving output fragments is excluded from
all per-request metrics without raising, and parsing of the remaining
requests continues; the all-empty-delta fixture yields zero surviving
requests under any tokenizer. -/
theorem c7_empty_requests_excluded :
    (∀ tok (t : Int) (s : String), extract tok (NormalizedRequest.mk t s []) = none) ∧
    (∀ tok (t : Int) (s : String) rs,
      survivors tok (NormalizedRequest.mk t s [] :: rs) = survivors tok rs) ∧
    (∀ tok, survivors tok ([emptyFixtureReq].map normalizeOpenai) = []) := by
  refine ⟨fun tok t s => rfl, ?_, fun tok => rfl⟩
  intro tok t s rs
  simp [survivors, List.filterMap_cons,
    show extract tok (NormalizedRequest.mk t s []) = none from rfl]

/-- C8: per-fragment token counts tokenize each fragment independently
while the total tokenizes the concatenation; on the ten-fragment fixture
the per-fragment counts are [1,…,1] (sum 10) while the concatenated text
counts 9 tokens, and the two differ. -/
theorem c8_token_count_independence :
    (∀ tok frags, get_output_token_counts tok frags
      = (frags.map tok, tok (String.join frags))) ∧
    get_output_token_counts modelTok tokenCountFixture
      = ([1, 1, 1, 1, 1, 1, 1, 1, 1, 1], 9) ∧
    (get_output_token_counts modelTok tokenCountFixture).2
      ≠ ((get_output_token_counts modelTok tokenCountFixture).1).sum :=
  ⟨fun tok frags => rfl, by decide, by decide⟩

/-- C9: a trailing streamed chunk that cannot be parsed as the expected
SSE JSON shape is passed through unmodified (treated as already-terminal
content), and response preprocessing never raises. -/
theorem c9_trailing_unparseable_passthrough :
    (∀ (cs : List (Option String)) (raw : String),
      preprocessStream (cs.map StreamLine.parsedData ++ [StreamLine.unparseable raw])
        = cs.map StreamLine.parsedData ++ [StreamLine.unparseable raw]) ∧
    (∀ ls, preprocessResponse ls = Except.ok (preprocessStream ls)) := by
  refine ⟨?_, fun ls => rfl⟩
  intro cs raw
  induction cs with
  | nil => simp [preprocessStream]
  | cons c cs' ih =>
    cases cs' with
    | nil => simp [preprocessStream]
    | cons c2 cs'' => simpa [preprocessStream] using ih

/-- C10: the console statistics-table row filter skips nothing when
endpoint_type is "embeddings"; otherwise it always skips
output_token_throughput_per_request, skips time_to_first_token and
inter_token_latency exactly when streaming is disabled, and shows every
other request metric. -/
theorem c10_console_row_filter :
    (∀ args m, should_skip args m = true ↔
      (args.endpoint_type ≠ ("embeddings") ∧
        (m = ("output_token_throughput_per_request") ∨
          (args.streaming = false ∧
            (m = ("time_to_first_token") ∨ m = ("inter_token_latency")))))) ∧
    (∀ args ms, construct_llm_table args ms = ms.filter (fun m => !(should_skip args m))) := by
  refine ⟨?_, fun args ms => rfl⟩
  intro args m
  unfold should_skip
  split_ifs with h1 h2 h3 <;> simp_all <;> tauto

end GenaiPerf
